import Mathlib

/-!
# Verification of `gyptest.py` (GYP test runner)

Shallow embedding of the runner in `gyptest.py`: test discovery
(`is_test_name`, `find_all_gyptest_files`), the argument-validation and
list-only paths of `main`, the format-resolution table, the (format × test)
matrix execution loop with its exit-code classification, and the reporter.

The file is not valid Python: the `print` call on line 101 is missing its
closing parenthesis, so the interpreter raises `SyntaxError` while
compiling the module and every real invocation exits with code 1 before
any statement of `main` runs.  The embedding therefore has two layers:
`runGyptest` models an actual invocation — it reaches `main` only behind
the parse check `moduleParses`, which is false because the embedded
`line101` has unbalanced parentheses — while `pymain` is the
statement-level, intended semantics of the body of `main` (line 101 read
with the parenthesis restored), used to state what the code was written
to do.

File-system effects (`os.path.isdir`, `os.walk`, `os.path.normpath`),
subprocess exit codes, wall-clock durations and captured child output are
supplied by a `World` of oracles; an invocation yields either a crash
(`RunError`, an uncaught Python exception: for the artifact, always the
module-level `SyntaxError`) or a `RunOutcome` recording the process exit
code, stderr messages, the stdout event trace, the accumulated failure
list and every subprocess command line launched.
-/

deriving instance DecidableEq for Except

namespace Gyp

/-- Python `s.startswith(pre)`: `pre` is a prefix of `s` (on the character
sequences). -/
def strStartsWith (s pre : String) : Bool := pre.data.isPrefixOf s.data

/-- Python `s.endswith(post)`: `post` is a suffix of `s` (on the character
sequences). -/
def strEndsWith (s post : String) : Bool := post.data.isSuffixOf s.data

/-- `is_test_name(f)` from gyptest.py: `f.startswith('gyptest') and f.endswith('.py')`. -/
def is_test_name (f : String) : Bool :=
  strStartsWith f "gyptest" && strEndsWith f ".py"

/-- POSIX model of `os.path.join(root, f)` for a non-empty `root` with no
trailing separator: `root + '/' + f`. -/
def joinPath (root f : String) : String := root ++ "/" ++ f

/-- POSIX model of `os.path.basename(p)`: everything after the last `/`. -/
def basename (p : String) : String :=
  ⟨(p.data.reverse.takeWhile (fun c => c ≠ '/')).reverse⟩

/-- Lexicographic comparison of Python strings by code point:
`a <= b` iff not `b < a` on the character sequences. -/
def strLE (a b : String) : Bool := !(decide (b.data < a.data))

mutual
/-- A directory: its plain files (base names) and its named subdirectories.
This is the file-system shape `os.walk` traverses. -/
inductive FSTree where
  | mk (files : List String) (subdirs : FSForest)

/-- The ordered list of named subdirectories of a directory. -/
inductive FSForest where
  | nil
  | cons (name : String) (tree : FSTree) (rest : FSForest)
end

mutual
/-- The collection phase of `find_all_gyptest_files`: `os.walk(directory)`
top-down, keeping `os.path.join(root, f)` for each file `f` with
`is_test_name(f)`.  No directory is pruned: the code never touches `dirs`. -/
def walkCollect (root : String) : FSTree → List String
  | .mk files subdirs =>
      (files.filter is_test_name).map (fun f => joinPath root f) ++
        walkCollectF root subdirs

def walkCollectF (root : String) : FSForest → List String
  | .nil => []
  | .cons name t rest =>
      walkCollect (joinPath root name) t ++ walkCollectF root rest
end

/-- `result.sort()` on a Python list of strings: ascending lexicographic
order on the character sequences (here via insertion sort, which is stable
like Python's sort). -/
def sortStrings (l : List String) : List String :=
  List.insertionSort (fun a b => strLE a b = true) l

/-- `find_all_gyptest_files(directory)` from gyptest.py: walk the tree and
sort the matching paths. -/
def find_all_gyptest_files (root : String) (t : FSTree) : List String :=
  sortStrings (walkCollect root t)

mutual
/-- All files of the tree as (directory path, base name) pairs, with no
name filtering.  Used to state what discovery returns. -/
def allFiles (root : String) : FSTree → List (String × String)
  | .mk files subdirs =>
      files.map (fun f => (root, f)) ++ allFilesF root subdirs

def allFilesF (root : String) : FSForest → List (String × String)
  | .nil => []
  | .cons name t rest =>
      allFiles (joinPath root name) t ++ allFilesF root rest
end

/-- Directory names conventionally holding version-control metadata. -/
def vcMetaDirNames : List String := [".svn", ".git", ".hg", "CVS"]

mutual
/-- Modelled from the spec: the walk "skipping any version-control metadata
directories encountered" that section 4.1 of the spec describes; the code in
`find_all_gyptest_files` has no such pruning, so this variant exists only to
compare against it. -/
def walkCollectSkipVC (root : String) : FSTree → List String
  | .mk files subdirs =>
      (files.filter is_test_name).map (fun f => joinPath root f) ++
        walkCollectSkipVCF root subdirs

def walkCollectSkipVCF (root : String) : FSForest → List String
  | .nil => []
  | .cons name t rest =>
      (if name ∈ vcMetaDirNames then []
       else walkCollectSkipVC (joinPath root name) t) ++
        walkCollectSkipVCF root rest
end

/-- Modelled from the spec: discovery as section 4.1 words it, with
version-control metadata directories skipped, then sorted. -/
def find_all_gyptest_files_skipvc (root : String) (t : FSTree) : List String :=
  sortStrings (walkCollectSkipVC root t)

/-! ## The runner: `main` of gyptest.py -/

/-- The parsed command line, one field per `add_argument` call of `main`
(with argparse defaults). -/
structure Args where
  all : Bool
  chdir : Option String
  format : String
  gyp_option : List String
  list : Bool
  no_exec : Bool
  path : List String
  quiet : Bool
  tests : List String

/-- The operating-system oracles `main` consults, all relative to the
working directory in effect after any `--chdir`:
`isdir` is `os.path.isdir`; `normpath` is `os.path.normpath`; `tree p` is
the directory tree `os.walk(p)` traverses; `rc f t` is the exit status
`proc.returncode` of test `t` run under format `f` (the `TESTGYP_FORMAT=f`
child environment is folded into this oracle, as are `PYTHONPATH` and
`PYTHONUNBUFFERED`); `took f t` is the measured elapsed time of that child
(milliseconds; wall-clock time is an oracle here); `child_stdout f t` is its
captured combined stdout/stderr; `executable` is `sys.executable` and
`platform` is `sys.platform`.  There is deliberately no file-existence
oracle: gyptest.py never calls `os.path.exists`. -/
structure World where
  executable : String
  platform : String
  isdir : String → Bool
  normpath : String → String
  tree : String → FSTree
  rc : String → String → Int
  took : String → String → Nat
  child_stdout : String → String → String

/-- The classification keywords `res` can hold. -/
inductive TestResult where
  | passed
  | failed
  | skipped
deriving DecidableEq, Repr

/-- Lines 156-162 of gyptest.py:
`if proc.returncode == 2: res = 'skipped' elif proc.returncode: res =
'failed' else: res = 'passed'` (any nonzero status is truthy, negative
signal statuses included). -/
def classify (returncode : Int) : TestResult :=
  if returncode = 2 then .skipped
  else if returncode ≠ 0 then .failed
  else .passed

/-- One entry of the stdout trace. `progressLine` is the per-invocation
line of lines 145 and 164: index `i` of `total` padded to `width` digits,
the format, the command minus the interpreter (`cmd[1:]`), the
classification keyword and the elapsed time; `childDump` is the echoed
child output of lines 166-168; the remaining constructors stand for the
configuration header, the extra-options note, a `--list` path line, and the
final report of lines 172-186. -/
inductive OutEvent where
  | configInfo
  | gypOptionsNote (opts : List String)
  | testPath (t : String)
  | progressLine (i total width : Nat) (format_ : String) (cmdTail : List String)
      (res : TestResult) (took : Nat)
  | childDump (stdout : String)
  | reportHeader (description : String) (n : Nat)
  | reportTests (ts : List String)
  | ranSummary (numTests numFailed : Nat)
deriving DecidableEq, Repr

/-- `cmd = [sys.executable, test] + gyp_options` (line 144). -/
def mkCmd (executable test : String) (gyp_options : List String) : List String :=
  executable :: test :: gyp_options

/-- `'(%s) %s' % (format_, test)`: a failure-list entry (line 160). -/
def mkFailId (format_ test : String) : String :=
  "(" ++ format_ ++ ") " ++ test

/-- The mutable state threaded through the matrix loop: the running index
`i`, the stdout trace so far, the subprocess command lines launched so far,
and the accumulated `failed` list. -/
structure LoopState where
  i : Nat
  events : List OutEvent
  launched : List (List String)
  failed : List String
deriving DecidableEq, Repr

/-- Loop body, lines 143-170 of gyptest.py, for one (format, test) pair:
print the progress prefix, launch the child, classify its exit status,
append to `failed` on a failing status, print the result and time, and
echo the child output unless it ends in the `PASSED`/`NO RESULT` marker. -/
def runTestIter (w : World) (gyp_options : List String) (num_tests width : Nat)
    (format_ test : String) (s : LoopState) : LoopState :=
  let cmd := mkCmd w.executable test gyp_options
  let res := classify (w.rc format_ test)
  let stdout := w.child_stdout format_ test
  let dump :=
    if strEndsWith stdout "PASSED\n" = false ∧ strEndsWith stdout "NO RESULT\n" = false
    then [OutEvent.childDump stdout] else []
  { i := s.i + 1
    events := s.events ++
      OutEvent.progressLine s.i num_tests width format_ (cmd.drop 1) res
        (w.took format_ test) :: dump
    launched := s.launched ++ [cmd]
    failed := s.failed ++
      (if res = .failed then [mkFailId format_ test] else []) }

/-- The inner loop `for test in tests` (lines 143-170). -/
def runInner (w : World) (gyp_options : List String) (num_tests width : Nat)
    (format_ : String) (tests : List String) (s : LoopState) : LoopState :=
  tests.foldl (fun st t => runTestIter w gyp_options num_tests width format_ t st) s

/-- The outer loop `for format_ in format_list` (lines 140-170). -/
def runOuter (w : World) (gyp_options : List String) (num_tests width : Nat)
    (tests format_list : List String) (s : LoopState) : LoopState :=
  format_list.foldl
    (fun st f => runInner w gyp_options num_tests width f tests st) s

/-- Python `s.split(sep)` for a one-character separator, on character
lists; `''.split(',') == ['']`, so the result is never empty. -/
def splitOnChar (sep : Char) (l : List Char) : List (List Char) :=
  l.foldr
    (fun c acc =>
      match acc with
      | [] => [[c]]
      | g :: gs => if c = sep then [] :: g :: gs else (c :: g) :: gs)
    [[]]

/-- `args.format.split(',')` (line 112). -/
def pySplitComma (s : String) : List String :=
  (splitOnChar ',' s.data).map (fun l => ⟨l⟩)

/-- The platform-default format dictionary of lines 114-125; `none` models
the `KeyError` an unlisted `sys.platform` raises. -/
def platformFormats (p : String) : Option (List String) :=
  if p = "aix5" then some ["make"]
  else if p = "freebsd7" then some ["make"]
  else if p = "freebsd8" then some ["make"]
  else if p = "openbsd5" then some ["make"]
  else if p = "cygwin" then some ["msvs"]
  else if p = "win32" then some ["msvs", "ninja"]
  else if p = "linux" then some ["make", "ninja"]
  else if p = "linux2" then some ["make", "ninja"]
  else if p = "linux3" then some ["make", "ninja"]
  else if p = "darwin" then some ["make", "ninja", "xcode", "xcode-ninja"]
  else none

/-- Lines 111-125: an explicit `-f` list is split on commas, otherwise the
platform default table is consulted. -/
def formatListOf (w : World) (args : Args) : Option (List String) :=
  if args.format ≠ "" then some (pySplitComma args.format)
  else platformFormats w.platform

/-- Lines 127-129: each `-G` option becomes a `['-G', option]` pair. -/
def gyp_options_of (opts : List String) : List String :=
  (opts.map (fun o => ["-G", o])).flatten

/-- `aux fuel pw n` is the least `j` with `n ≤ pw * 10 ^ j`, provided
`fuel` is large enough; structural fuel keeps it kernel-computable. -/
def ceilLog10Aux : Nat → Nat → Nat → Nat
  | 0, _, _ => 0
  | fuel + 1, pw, n => if n ≤ pw then 0 else ceilLog10Aux fuel (pw * 10) n + 1

/-- `num_test_digits = math.ceil(math.log(num_tests, 10))` (line 136): the
least `k` with `num_tests ≤ 10 ^ k`, i.e. the ceiling of the base-10
logarithm (`math.log(0, 10)` raises, a case `pymain` maps to a crash
before this is evaluated). -/
def num_test_digits (num_tests : Nat) : Nat :=
  ceilLog10Aux num_tests 1 num_tests

/-- Lines 63-67: an empty positional list requires `-a` and then stands
for `['test']`. -/
def effectiveTests (args : Args) : List String :=
  if args.tests = [] then ["test"] else args.tests

/-- Lines 69-77: each positional argument is either a directory (walked
with `find_all_gyptest_files` after `os.path.normpath`) or a file whose
base name must satisfy `is_test_name`; the first failing name aborts via
`sys.exit(1)` with a message on stderr, modelled as `.error msg`. -/
def collectTests (w : World) : List String → Except String (List String)
  | [] => .ok []
  | arg :: rest =>
    if w.isdir arg then
      match collectTests w rest with
      | .error e => .error e
      | .ok ts =>
          .ok (find_all_gyptest_files (w.normpath arg) (w.tree (w.normpath arg)) ++ ts)
    else if is_test_name (basename arg) then
      match collectTests w rest with
      | .error e => .error e
      | .ok ts => .ok (arg :: ts)
    else
      .error (arg ++ " is not a valid gyp test name.")

/-- The observable outcome of a completed run of `main`: the process exit
code, the lines written to stderr, the stdout trace, the final `failed`
list and every subprocess command line launched. -/
structure RunOutcome where
  exitCode : Nat
  stderrLines : List String
  output : List OutEvent
  failed : List String
  launched : List (List String)
deriving DecidableEq, Repr

/-- The uncaught Python exceptions an invocation of gyptest.py can die
with.  Each makes the interpreter print a traceback to stderr and exit
with code 1, producing none of the runner's own stdout and launching no
subprocess.  `syntaxErrorLine101` is the module-level `SyntaxError` from
the unbalanced parenthesis on line 101 (see `line101`): the interpreter
compiles the whole file before running any of it, so this is the error
every real invocation raises, before `main` even starts.  The remaining
three are the exceptions the body of `main` would raise had the module
parsed: the `NameError` of line 59 (`opts.path` where only `args` is
defined), the `KeyError` of the platform table lookup (line 125), and the
`ValueError` of `math.log(0, 10)` (line 136). -/
inductive RunError where
  | syntaxErrorLine101
  | nameErrorOpts
  | keyErrorPlatform
  | valueErrorLogZero
deriving DecidableEq, Repr

/-- Lines 172-186: the failure report (only when `failed` is non-empty)
followed by the one-line run summary. -/
def reportEvents (failed : List String) (num_tests : Nat) : List OutEvent :=
  (if failed = [] then []
   else [OutEvent.reportHeader "Failed" failed.length, OutEvent.reportTests failed]) ++
    [OutEvent.ranSummary num_tests failed.length]

/-- The intended semantics of lines 84-191 once `tests` is validated and
execution is reached: the configuration header and extra-options note
(suppressed by `--quiet`), the format resolution, the matrix loop starting
from `i = 1`, the report (suppressed by `--quiet`), and exit code 1
exactly when `failed` is non-empty.  The `configInfo` event stands for the
configuration block of lines 87-104 read with the missing closing
parenthesis of line 101 restored; in the artifact that very line makes the
module unparseable, so this code path is never reached (see
`runGyptest`). -/
def matrixOutcome (w : World) (args : Args) (tests format_list : List String) :
    RunOutcome :=
  let gyp_options := gyp_options_of args.gyp_option
  let num_tests := tests.length * format_list.length
  let width := num_test_digits num_tests
  let s := runOuter w gyp_options num_tests width tests format_list
    { i := 1, events := [], launched := [], failed := [] }
  { exitCode := if s.failed = [] then 0 else 1
    stderrLines := []
    output :=
      (if args.quiet then [] else [OutEvent.configInfo]) ++
      (if args.gyp_option ≠ [] ∧ args.quiet = false
       then [OutEvent.gypOptionsNote args.gyp_option] else []) ++
      s.events ++
      (if args.quiet then [] else reportEvents s.failed num_tests)
    failed := s.failed
    launched := s.launched }

/-- The body of `main(argv)` of gyptest.py as a pure function of the
parsed arguments and the OS oracles — its statement-level, intended
semantics, with line 101 read as if its missing parenthesis were restored.
NO REAL INVOCATION EVER RUNS THIS: the module that defines `main` does not
parse (line 101), so the interpreter raises `SyntaxError` before `main`
starts; `runGyptest` below models the actual launch and reaches `pymain`
only behind the (false) `moduleParses` guard.  `pymain` exists to state
what the cited lines were written to do.  In order: the `--path` block of
lines 58-61 (which dereferences the undefined name `opts` and so would
raise `NameError` whenever any `--path` is given), the missing `-a` usage
error of lines 63-66, the per-argument validation/discovery of lines
69-77, the `--list` short-circuit of lines 79-82, and the execution path
summarised by `matrixOutcome`.  `args.no_exec` is never consulted, exactly
as in the source, where the parsed flag is never read back.
`num_tests = 0` (an empty discovery result) crashes in `math.log` before
any subprocess. -/
def pymain (w : World) (args : Args) : Except RunError RunOutcome :=
  if args.path ≠ [] then .error .nameErrorOpts
  else if args.tests = [] ∧ args.all = false then
    .ok { exitCode := 1, stderrLines := ["Specify -a to get all tests."],
          output := [], failed := [], launched := [] }
  else
    match collectTests w (effectiveTests args) with
    | .error msg =>
        .ok { exitCode := 1, stderrLines := [msg], output := [], failed := [],
              launched := [] }
    | .ok tests =>
        if args.list then
          .ok { exitCode := 0, stderrLines := [],
                output := tests.map OutEvent.testPath, failed := [], launched := [] }
        else
          match formatListOf w args with
          | none => .error .keyErrorPlatform
          | some format_list =>
              if tests.length * format_list.length = 0 then .error .valueErrorLogZero
              else .ok (matrixOutcome w args tests format_list)

/-- A `World` extended with an `os.path.exists` oracle.  `pymainFS`
exposes that gyptest.py consults every oracle through `core` only:
existence of the named test files is never checked. -/
structure WorldFS where
  core : World
  exists_ : String → Bool

/-- The body of `main` over the extended world: the existence oracle is
dead code, mirroring that the source never calls `os.path.exists`. -/
def pymainFS (wf : WorldFS) (args : Args) : Except RunError RunOutcome :=
  pymain wf.core args

/-! ## The artifact: invoking `python gyptest.py` -/

/-- Line 101 of src/gyptest.py, verbatim.  Its closing parenthesis is
missing: three `(` against two `)` outside the string literals. -/
def line101 : String :=
  "      print('  Linux %s' % ' '.join(platform.linux_distribution())"

/-- Net parenthesis depth of one line of Python source: the running count
of `(` not yet closed by `)`, ignoring parentheses inside single-quoted
string literals (the only string style on `line101`; 39 is the code point
of the single quote). -/
def pyParenDepth : List Char → Bool → Int → Int
  | [], _, depth => depth
  | c :: cs, inStr, depth =>
    if c.toNat = 39 then pyParenDepth cs (!inStr) depth
    else if inStr then pyParenDepth cs inStr depth
    else if c = '(' then pyParenDepth cs inStr (depth + 1)
    else if c = ')' then pyParenDepth cs inStr (depth - 1)
    else pyParenDepth cs inStr depth

/-- The net parenthesis depth of a source line, scanned from depth 0
outside any string. -/
def lineParenDepth (s : String) : Int := pyParenDepth s.data false 0

/-- A Python statement line is syntactically complete only if its
parentheses balance; line 101 is the one line of gyptest.py where they do
not, so the module fails to compile.  (The unclosed `(` makes the parser
swallow line 102 as a continuation and die with `SyntaxError`.) -/
def moduleParses : Bool := lineParenDepth line101 == 0

/-- Invoking `python gyptest.py ...`: the interpreter compiles the whole
module before executing any statement, so a file that does not parse makes
every invocation die with a module-level `SyntaxError` — exit code 1, a
traceback on stderr, no stdout of the runner's own, no subprocess — and
`main` (embedded as `pymain`) would run only if the module parsed, which
it does not. -/
def runGyptest (w : World) (args : Args) : Except RunError RunOutcome :=
  if moduleParses then pymain w args else .error .syntaxErrorLine101

/-- The runner's own stdout trace of an invocation: a run that dies with
an uncaught exception prints only the interpreter's traceback (to stderr),
none of the runner's output. -/
def stdoutOf : Except RunError RunOutcome → List OutEvent
  | .error _ => []
  | .ok o => o.output

/-- The subprocess command lines an invocation launches: none when the
run dies with an uncaught exception. -/
def launchedOf : Except RunError RunOutcome → List (List String)
  | .error _ => []
  | .ok o => o.launched

/-- The process exit code of an invocation: an uncaught Python exception
makes the interpreter exit with code 1. -/
def exitCodeOf : Except RunError RunOutcome → Nat
  | .error _ => 1
  | .ok o => o.exitCode

/-! ## Derived descriptions used to state and prove the claims -/

/-- The (format, test) pairs the matrix loop visits, in loop order:
outer loop over formats, inner loop over tests. -/
def invocations : List String → List String → List (String × String)
  | [], _ => []
  | f :: fs, tests => tests.map (fun t => (f, t)) ++ invocations fs tests

/-- The stdout events one invocation of `runTestIter` appends when the
index is `idx`. -/
def invocEvents (w : World) (gyp_options : List String) (num_tests width : Nat)
    (format_ test : String) (idx : Nat) : List OutEvent :=
  OutEvent.progressLine idx num_tests width format_ (test :: gyp_options)
      (classify (w.rc format_ test)) (w.took format_ test) ::
    (if strEndsWith (w.child_stdout format_ test) "PASSED\n" = false ∧
        strEndsWith (w.child_stdout format_ test) "NO RESULT\n" = false
     then [OutEvent.childDump (w.child_stdout format_ test)] else [])

/-- The stdout events of one inner loop over `tests`, starting at index `idx`. -/
def eventsFor (w : World) (g : List String) (n wd : Nat) (f : String) :
    Nat → List String → List OutEvent
  | _, [] => []
  | idx, t :: ts => invocEvents w g n wd f t idx ++ eventsFor w g n wd f (idx + 1) ts

/-- The stdout events of the whole matrix loop, starting at index `idx`. -/
def matrixEvents (w : World) (g : List String) (n wd : Nat) (tests : List String) :
    Nat → List String → List OutEvent
  | _, [] => []
  | idx, f :: fs =>
      eventsFor w g n wd f idx tests ++
        matrixEvents w g n wd tests (idx + tests.length) fs

/-- The (format, test) identity a progress line reports: its format field
and the head of the echoed command (the test path). -/
def eventPair : OutEvent → Option (String × String)
  | .progressLine _ _ _ f cmdTail _ _ => some (f, cmdTail.headD "")
  | _ => none

/-- All (format, test) identities reported by progress lines of a trace. -/
def execPairs (evs : List OutEvent) : List (String × String) :=
  evs.filterMap eventPair

/-- The (total, padding width) fields of a progress line. -/
def progressMeta : OutEvent → Option (Nat × Nat)
  | .progressLine _ total width _ _ _ _ => some (total, width)
  | _ => none

/-- Recognises the final `Ran N tests, K failed` summary line. -/
def isRanSummary : OutEvent → Bool
  | .ranSummary _ _ => true
  | _ => false

/-- Recognises a per-invocation progress line. -/
def isProgressLine : OutEvent → Bool
  | .progressLine _ _ _ _ _ _ _ => true
  | _ => false

/-! ## Concrete worlds and argument vectors for witnesses and counterexamples -/

/-- A small concrete world: no directories, empty trees, children exit 0
except `gyptest-fail.py` (exit 1) and `gyptest-skip.py` (exit 2), all
children print the `PASSED` marker. -/
def w0 : World :=
  { executable := "python", platform := "linux",
    isdir := fun _ => false, normpath := fun p => p,
    tree := fun _ => FSTree.mk [] .nil,
    rc := fun _ t =>
      if t = "gyptest-fail.py" then 1 else if t = "gyptest-skip.py" then 2 else 0,
    took := fun _ _ => 3,
    child_stdout := fun _ _ => "PASSED\n" }

/-- A baseline argument vector: `gyptest.py -f make gyptest-foo.py`. -/
def args0 : Args :=
  { all := false, chdir := none, format := "make", gyp_option := [],
    list := false, no_exec := false, path := [], quiet := false,
    tests := ["gyptest-foo.py"] }

/-- A directory holding a matching test file only inside a `.svn`
version-control metadata subdirectory. -/
def svnTree : FSTree :=
  FSTree.mk ["README"] (.cons ".svn" (.mk ["gyptest-x.py"] .nil) .nil)

/-- `gyptest.py -n -f make gyptest-foo.py`. -/
def c7args : Args := { args0 with no_exec := true }

/-- `gyptest.py -a -f make --path /extra/bin`. -/
def c8args : Args := { args0 with path := ["/extra/bin"], all := true, tests := [] }

/-- `gyptest.py -q -f make gyptest-foo.py`. -/
def c6args : Args := { args0 with quiet := true }

/-- Three direct test arguments: under `w0` the first passes, the second
fails (exit 1), the third is skipped (exit 2). -/
def c1tests : List String :=
  ["gyptest-ok.py", "gyptest-fail.py", "gyptest-skip.py"]

/-- `gyptest.py -f make gyptest-ok.py gyptest-fail.py gyptest-skip.py`. -/
def c1args : Args := { args0 with tests := c1tests }

/-- `gyptest.py -f make,ninja gyptest-ok.py gyptest-fail.py gyptest-skip.py`. -/
def c2args : Args := { args0 with format := "make,ninja", tests := c1tests }

/-- `gyptest.py -f make notatest.py`: the base name fails the pattern. -/
def c4args : Args := { args0 with tests := ["notatest.py"] }

/-- `gyptest.py -l -f make gyptest-foo.py`. -/
def c5args : Args := { args0 with list := true }

/-! ## Helper lemmas: sorting and discovery -/

theorem strLE_iff (a b : String) : strLE a b = true ↔ a ≤ b := by
  simp only [strLE, Bool.not_eq_true', decide_eq_false_iff_not]
  rw [show ((b.data < a.data) ↔ (b < a)) from (String.lt_iff_toList_lt).symm]
  exact not_lt

theorem sortStrings_sorted (l : List String) :
    List.Sorted (· ≤ ·) (sortStrings l) := by
  haveI : IsTotal String (fun a b => strLE a b = true) :=
    ⟨fun a b => by rw [strLE_iff a b, strLE_iff b a]; exact le_total a b⟩
  haveI : IsTrans String (fun a b => strLE a b = true) :=
    ⟨fun a b c hab hbc => by
      rw [strLE_iff a b] at hab
      rw [strLE_iff b c] at hbc
      rw [strLE_iff a c]
      exact le_trans hab hbc⟩
  exact (List.sorted_insertionSort (fun a b => strLE a b = true) l).imp
    (fun hab => (strLE_iff _ _).1 hab)

theorem mem_sortStrings {l : List String} {x : String} :
    x ∈ sortStrings l ↔ x ∈ l :=
  (List.perm_insertionSort (fun a b => strLE a b = true) l).mem_iff

mutual
theorem walkCollect_eq : ∀ (root : String) (t : FSTree),
    walkCollect root t =
      ((allFiles root t).filter (fun pr => is_test_name pr.2)).map
        (fun pr => joinPath pr.1 pr.2)
  | root, .mk files subdirs => by
      rw [walkCollect, allFiles, walkCollectF_eq root subdirs]
      simp [List.filter_append, List.filter_map, List.map_map, Function.comp_def]

theorem walkCollectF_eq : ∀ (root : String) (f : FSForest),
    walkCollectF root f =
      ((allFilesF root f).filter (fun pr => is_test_name pr.2)).map
        (fun pr => joinPath pr.1 pr.2)
  | _, .nil => rfl
  | root, .cons name t rest => by
      rw [walkCollectF, allFilesF, walkCollect_eq (joinPath root name) t,
        walkCollectF_eq root rest]
      simp [List.filter_append]
end

theorem find_all_sorted (root : String) (t : FSTree) :
    List.Sorted (· ≤ ·) (find_all_gyptest_files root t) :=
  sortStrings_sorted _

theorem mem_find_all {root : String} {t : FSTree} {p : String} :
    p ∈ find_all_gyptest_files root t ↔
      ∃ pr ∈ allFiles root t, is_test_name pr.2 = true ∧ p = joinPath pr.1 pr.2 := by
  rw [find_all_gyptest_files, mem_sortStrings, walkCollect_eq]
  simp only [List.mem_map, List.mem_filter]
  constructor
  · rintro ⟨pr, ⟨hmem, hname⟩, hjoin⟩
    exact ⟨pr, hmem, hname, hjoin.symm⟩
  · rintro ⟨pr, hmem, hname, hjoin⟩
    exact ⟨pr, ⟨hmem, hname⟩, hjoin.symm⟩

/-! ## Helper lemmas: the matrix loop -/

theorem runTestIter_eq (w : World) (g : List String) (n wd : Nat)
    (f t : String) (s : LoopState) :
    runTestIter w g n wd f t s =
      { i := s.i + 1,
        events := s.events ++ invocEvents w g n wd f t s.i,
        launched := s.launched ++ [mkCmd w.executable t g],
        failed := s.failed ++
          if classify (w.rc f t) = .failed then [mkFailId f t] else [] } :=
  rfl

theorem runInner_eq (w : World) (g : List String) (n wd : Nat) (f : String) :
    ∀ (tests : List String) (s : LoopState),
      runInner w g n wd f tests s =
        { i := s.i + tests.length,
          events := s.events ++ eventsFor w g n wd f s.i tests,
          launched := s.launched ++ tests.map (fun t => mkCmd w.executable t g),
          failed := s.failed ++ tests.filterMap
            (fun t => if classify (w.rc f t) = .failed
                      then some (mkFailId f t) else none) }
  | [], s => by simp [runInner, eventsFor]
  | t :: ts, s => by
      show runInner w g n wd f ts (runTestIter w g n wd f t s) = _
      rw [runInner_eq w g n wd f ts, runTestIter_eq]
      simp only [LoopState.mk.injEq, eventsFor, List.filterMap_cons, List.map_cons,
        List.length_cons]
      refine ⟨by omega, by simp, by simp, ?_⟩
      by_cases h : classify (w.rc f t) = .failed <;> simp [h]

theorem runOuter_eq (w : World) (g : List String) (n wd : Nat)
    (tests : List String) :
    ∀ (fl : List String) (s : LoopState),
      runOuter w g n wd tests fl s =
        { i := s.i + fl.length * tests.length,
          events := s.events ++ matrixEvents w g n wd tests s.i fl,
          launched := s.launched ++
            (invocations fl tests).map (fun p => mkCmd w.executable p.2 g),
          failed := s.failed ++ (invocations fl tests).filterMap
            (fun p => if classify (w.rc p.1 p.2) = .failed
                      then some (mkFailId p.1 p.2) else none) }
  | [], s => by simp [runOuter, matrixEvents, invocations]
  | f :: fs, s => by
      show runOuter w g n wd tests fs (runInner w g n wd f tests s) = _
      rw [runOuter_eq w g n wd tests fs, runInner_eq]
      simp only [LoopState.mk.injEq, matrixEvents, invocations, List.map_append,
        List.filterMap_append, List.filterMap_map, List.map_map, List.length_cons]
      refine ⟨by ring, by simp, ?_, ?_⟩
      · simp [Function.comp_def]
      · simp [Function.comp_def]

/-! ## Helper lemmas: validation, formats, invocations -/

theorem collectTests_ok (w : World) :
    ∀ l : List String,
      (∀ a ∈ l, w.isdir a = false ∧ is_test_name (basename a) = true) →
      collectTests w l = .ok l
  | [], _ => rfl
  | a :: rest, h => by
      have ha := h a (List.mem_cons_self a rest)
      rw [collectTests, if_neg (by simp [ha.1]), if_pos ha.2,
        collectTests_ok w rest (fun b hb => h b (List.mem_cons_of_mem a hb))]

theorem collectTests_error (w : World) :
    ∀ l : List String,
      (∃ a ∈ l, w.isdir a = false ∧ is_test_name (basename a) = false) →
      ∃ bad, is_test_name (basename bad) = false ∧
        collectTests w l = .error (bad ++ " is not a valid gyp test name.")
  | [], h => absurd h (by simp)
  | a :: rest, h => by
      rcases h with ⟨x, hx, hxdir, hxname⟩
      rw [collectTests]
      by_cases hd : w.isdir a = true
      · have hxrest : x ∈ rest := by
          rcases List.mem_cons.1 hx with hxa | hxr
          · exact absurd hd (by rw [hxa] at hxdir; simp [hxdir])
          · exact hxr
        obtain ⟨bad, hbname, herr⟩ :=
          collectTests_error w rest ⟨x, hxrest, hxdir, hxname⟩
        rw [if_pos hd, herr]
        exact ⟨bad, hbname, rfl⟩
      · rw [if_neg hd]
        by_cases hn : is_test_name (basename a) = true
        · have hxrest : x ∈ rest := by
            rcases List.mem_cons.1 hx with hxa | hxr
            · exact absurd hn (by rw [hxa] at hxname; simp [hxname])
            · exact hxr
          obtain ⟨bad, hbname, herr⟩ :=
            collectTests_error w rest ⟨x, hxrest, hxdir, hxname⟩
          rw [if_pos hn, herr]
          exact ⟨bad, hbname, rfl⟩
        · rw [if_neg hn]
          exact ⟨a, by simpa using hn, rfl⟩

theorem pymain_matrix_eq (w : World) (args : Args) (ts fl : List String)
    (h1 : args.path = [])
    (h2 : ¬(args.tests = [] ∧ args.all = false))
    (h3 : collectTests w (effectiveTests args) = .ok ts)
    (h4 : args.list = false)
    (h5 : formatListOf w args = some fl)
    (h6 : ts.length * fl.length ≠ 0) :
    pymain w args = .ok (matrixOutcome w args ts fl) := by
  rw [pymain, if_neg (by simp [h1]), if_neg h2, h3]
  simp only [h4, if_neg Bool.false_ne_true, h5]
  rw [if_neg h6]

theorem splitOnChar_ne_nil (sep : Char) (l : List Char) :
    splitOnChar sep l ≠ [] := by
  rw [splitOnChar]
  induction l with
  | nil => simp
  | cons c cs ih =>
      rw [List.foldr_cons]
      cases h : List.foldr _ [[]] cs with
      | nil => simp
      | cons g gs => by_cases hc : c = sep <;> simp [hc]

theorem pySplitComma_ne_nil (s : String) : pySplitComma s ≠ [] := by
  intro hnil
  exact splitOnChar_ne_nil ',' s.data
    (by simpa [pySplitComma, List.map_eq_nil_iff] using hnil)

theorem formatListOf_explicit (w : World) {args : Args} (hf : args.format ≠ "") :
    formatListOf w args = some (pySplitComma args.format) := by
  rw [formatListOf, if_pos hf]

theorem invocations_length :
    ∀ (fl ts : List String), (invocations fl ts).length = fl.length * ts.length
  | [], ts => by simp [invocations]
  | f :: fs, ts => by
      simp [invocations, invocations_length fs ts, Nat.succ_mul, Nat.add_comm]

theorem invocations_ne_nil {fl ts : List String} (hfl : fl ≠ []) (hts : ts ≠ []) :
    invocations fl ts ≠ [] := by
  intro h
  have := invocations_length fl ts
  rw [h] at this
  simp only [List.length_nil] at this
  rcases Nat.mul_eq_zero.1 this.symm with h0 | h0
  · exact hfl (List.length_eq_zero.1 h0)
  · exact hts (List.length_eq_zero.1 h0)

theorem mem_invocations :
    ∀ (fl ts : List String) (f t : String),
      ((f, t) ∈ invocations fl ts) ↔ (f ∈ fl ∧ t ∈ ts)
  | [], ts, f, t => by simp [invocations]
  | f' :: fs, ts, f, t => by
      simp only [invocations, List.mem_append, List.mem_map, Prod.mk.injEq,
        mem_invocations fs ts f t, List.mem_cons]
      constructor
      · rintro (⟨x, hx, rfl, rfl⟩ | ⟨hf, ht⟩)
        · exact ⟨Or.inl rfl, hx⟩
        · exact ⟨Or.inr hf, ht⟩
      · rintro ⟨rfl | hf, ht⟩
        · exact Or.inl ⟨t, ht, rfl, rfl⟩
        · exact Or.inr ⟨hf, ht⟩

theorem count_map_pair (f' f t : String) :
    ∀ ts : List String,
      ((ts.map (fun x => (f', x))).count (f, t)) =
        if f' = f then ts.count t else 0
  | [] => by simp
  | x :: ts => by
      simp only [List.map_cons, List.count_cons, count_map_pair f' f t ts,
        Prod.mk.injEq, beq_iff_eq]
      by_cases hf : f' = f
      · subst hf
        by_cases ht : t = x <;> simp [ht]
      · simp [hf, fun h : f = f' => hf h.symm]

theorem count_invocations (f t : String) :
    ∀ (fl ts : List String),
      (invocations fl ts).count (f, t) = fl.count f * ts.count t
  | [], ts => by simp [invocations]
  | f' :: fs, ts => by
      simp only [invocations, List.count_append, count_map_pair f' f t ts,
        count_invocations f t fs ts, List.count_cons, beq_iff_eq]
      by_cases hf : f = f' <;>
        simp [hf, Nat.add_mul, eq_comm, Nat.add_comm]

theorem execPairs_append (l₁ l₂ : List OutEvent) :
    execPairs (l₁ ++ l₂) = execPairs l₁ ++ execPairs l₂ :=
  List.filterMap_append l₁ l₂ eventPair

theorem execPairs_invocEvents (w : World) (g : List String) (n wd : Nat)
    (f t : String) (idx : Nat) :
    execPairs (invocEvents w g n wd f t idx) = [(f, t)] := by
  rw [invocEvents, execPairs]
  split <;> simp [eventPair]

theorem execPairs_eventsFor (w : World) (g : List String) (n wd : Nat) (f : String) :
    ∀ (idx : Nat) (ts : List String),
      execPairs (eventsFor w g n wd f idx ts) = ts.map (fun t => (f, t))
  | _, [] => rfl
  | idx, t :: ts => by
      rw [eventsFor, execPairs_append, execPairs_invocEvents,
        execPairs_eventsFor w g n wd f (idx + 1) ts, List.map_cons]
      rfl

theorem execPairs_matrixEvents (w : World) (g : List String) (n wd : Nat)
    (ts : List String) :
    ∀ (idx : Nat) (fl : List String),
      execPairs (matrixEvents w g n wd ts idx fl) = invocations fl ts
  | _, [] => rfl
  | idx, f :: fs => by
      rw [matrixEvents, execPairs_append, execPairs_eventsFor,
        execPairs_matrixEvents w g n wd ts (idx + ts.length) fs, invocations]

theorem execPairs_reportEvents (failed : List String) (n : Nat) :
    execPairs (reportEvents failed n) = [] := by
  rw [reportEvents]
  split <;> rfl

theorem progressMeta_invocEvents {w : World} {g : List String} {n wd : Nat}
    {f t : String} {idx : Nat} {ev : OutEvent}
    (h : ev ∈ invocEvents w g n wd f t idx) {pr : Nat × Nat}
    (hm : progressMeta ev = some pr) : pr = (n, wd) := by
  rw [invocEvents] at h
  rcases List.mem_cons.1 h with rfl | hd
  · exact (Option.some.inj hm).symm
  · split at hd <;> simp at hd
    subst hd
    cases hm

theorem progressMeta_eventsFor {w : World} {g : List String} {n wd : Nat}
    {f : String} :
    ∀ {idx : Nat} {ts : List String} {ev : OutEvent},
      ev ∈ eventsFor w g n wd f idx ts →
      ∀ {pr : Nat × Nat}, progressMeta ev = some pr → pr = (n, wd)
  | _, [], _, h => by cases h
  | idx, t :: ts, ev, h => by
      rw [eventsFor] at h
      rcases List.mem_append.1 h with h1 | h2
      · exact progressMeta_invocEvents h1
      · exact progressMeta_eventsFor h2

theorem progressMeta_matrixEvents {w : World} {g : List String} {n wd : Nat}
    {ts : List String} :
    ∀ {idx : Nat} {fl : List String} {ev : OutEvent},
      ev ∈ matrixEvents w g n wd ts idx fl →
      ∀ {pr : Nat × Nat}, progressMeta ev = some pr → pr = (n, wd)
  | _, [], _, h => by cases h
  | idx, f :: fs, ev, h => by
      rw [matrixEvents] at h
      rcases List.mem_append.1 h with h1 | h2
      · exact progressMeta_eventsFor h1
      · exact progressMeta_matrixEvents h2

theorem ranSummary_not_mem_invocEvents (w : World) (g : List String) (n wd : Nat)
    (f t : String) (idx a b : Nat) :
    OutEvent.ranSummary a b ∉ invocEvents w g n wd f t idx := by
  rw [invocEvents]
  split <;> simp

theorem ranSummary_not_mem_eventsFor (w : World) (g : List String) (n wd : Nat)
    (f : String) (a b : Nat) :
    ∀ (idx : Nat) (ts : List String),
      OutEvent.ranSummary a b ∉ eventsFor w g n wd f idx ts
  | _, [] => by simp [eventsFor]
  | idx, t :: ts => by
      rw [eventsFor]
      intro h
      rcases List.mem_append.1 h with h1 | h2
      · exact ranSummary_not_mem_invocEvents w g n wd f t idx a b h1
      · exact ranSummary_not_mem_eventsFor w g n wd f a b (idx + 1) ts h2

theorem ranSummary_not_mem_matrixEvents (w : World) (g : List String) (n wd : Nat)
    (ts : List String) (a b : Nat) :
    ∀ (idx : Nat) (fl : List String),
      OutEvent.ranSummary a b ∉ matrixEvents w g n wd ts idx fl
  | _, [] => by simp [matrixEvents]
  | idx, f :: fs => by
      rw [matrixEvents]
      intro h
      rcases List.mem_append.1 h with h1 | h2
      · exact ranSummary_not_mem_eventsFor w g n wd f a b idx ts h1
      · exact ranSummary_not_mem_matrixEvents w g n wd ts a b (idx + ts.length) fs h2

theorem progress_mem_eventsFor (w : World) (g : List String) (n wd : Nat)
    (f t : String) :
    ∀ (idx : Nat) (ts : List String), t ∈ ts →
      ∃ k, OutEvent.progressLine k n wd f (t :: g) (classify (w.rc f t))
        (w.took f t) ∈ eventsFor w g n wd f idx ts
  | idx, x :: ts, ht => by
      rcases List.mem_cons.1 ht with rfl | hts
      · exact ⟨idx, by rw [eventsFor, invocEvents]; simp⟩
      · obtain ⟨k, hk⟩ := progress_mem_eventsFor w g n wd f t (idx + 1) ts hts
        exact ⟨k, by rw [eventsFor]; exact List.mem_append_right _ hk⟩

theorem progress_mem_matrixEvents (w : World) (g : List String) (n wd : Nat)
    (f t : String) :
    ∀ (idx : Nat) (ts fl : List String), f ∈ fl → t ∈ ts →
      ∃ k, OutEvent.progressLine k n wd f (t :: g) (classify (w.rc f t))
        (w.took f t) ∈ matrixEvents w g n wd ts idx fl
  | idx, ts, x :: fs, hf, ht => by
      rcases List.mem_cons.1 hf with rfl | hfs
      · obtain ⟨k, hk⟩ := progress_mem_eventsFor w g n wd f t idx ts ht
        exact ⟨k, by rw [matrixEvents]; exact List.mem_append_left _ hk⟩
      · obtain ⟨k, hk⟩ :=
          progress_mem_matrixEvents w g n wd f t (idx + ts.length) ts fs hfs ht
        exact ⟨k, by rw [matrixEvents]; exact List.mem_append_right _ hk⟩

theorem ranSummary_mem_reportEvents (failed : List String) (n : Nat) :
    OutEvent.ranSummary n failed.length ∈ reportEvents failed n := by
  rw [reportEvents]
  split <;> simp

/-! ## Helper lemmas: the ceiling logarithm and the matrix outcome -/

theorem ceilLog10Aux_spec :
    ∀ (fuel pw n : Nat), 0 < pw → n ≤ pw * 10 ^ fuel →
      (n ≤ pw * 10 ^ ceilLog10Aux fuel pw n ∧
        ∀ k, n ≤ pw * 10 ^ k → ceilLog10Aux fuel pw n ≤ k)
  | 0, pw, n, _, hle => by
      simp only [ceilLog10Aux]
      refine ⟨by simpa using hle, fun k _ => Nat.zero_le k⟩
  | fuel + 1, pw, n, hpw, hle => by
      rw [ceilLog10Aux]
      by_cases h : n ≤ pw
      · rw [if_pos h]
        exact ⟨by simpa using h, fun k _ => Nat.zero_le k⟩
      · rw [if_neg h]
        have hle' : n ≤ pw * 10 * 10 ^ fuel := by
          calc n ≤ pw * 10 ^ (fuel + 1) := hle
            _ = pw * 10 * 10 ^ fuel := by ring
        obtain ⟨h1, h2⟩ :=
          ceilLog10Aux_spec fuel (pw * 10) n (by positivity) hle'
        constructor
        · calc n ≤ pw * 10 * 10 ^ ceilLog10Aux fuel (pw * 10) n := h1
            _ = pw * 10 ^ (ceilLog10Aux fuel (pw * 10) n + 1) := by ring
        · intro k hk
          match k with
          | 0 => exact absurd (by simpa using hk) h
          | k + 1 =>
              have hk' : n ≤ pw * 10 * 10 ^ k := by
                calc n ≤ pw * 10 ^ (k + 1) := hk
                  _ = pw * 10 * 10 ^ k := by ring
              exact Nat.succ_le_succ (h2 k hk')

theorem num_test_digits_le_pow (n : Nat) :
    n ≤ 10 ^ num_test_digits n ∧ ∀ k, n ≤ 10 ^ k → num_test_digits n ≤ k := by
  have hfuel : n ≤ 1 * 10 ^ n := by
    have h2 : n < 2 ^ n := Nat.lt_two_pow n
    have h10 : 2 ^ n ≤ 10 ^ n := Nat.pow_le_pow_left (by omega) n
    omega
  obtain ⟨h1, h2⟩ := ceilLog10Aux_spec n 1 n Nat.one_pos hfuel
  rw [num_test_digits]
  exact ⟨by simpa using h1, fun k hk => h2 k (by simpa using hk)⟩

theorem num_test_digits_eq_clog (n : Nat) :
    num_test_digits n = Nat.clog 10 n := by
  obtain ⟨h1, h2⟩ := num_test_digits_le_pow n
  refine Nat.le_antisymm (h2 _ (Nat.le_pow_clog (by norm_num) n)) ?_
  exact (Nat.le_pow_iff_clog_le (by norm_num)).1 h1

theorem matrixOutcome_failed (w : World) (args : Args) (ts fl : List String) :
    (matrixOutcome w args ts fl).failed =
      (invocations fl ts).filterMap
        (fun p => if classify (w.rc p.1 p.2) = .failed
                  then some (mkFailId p.1 p.2) else none) := by
  rw [matrixOutcome, runOuter_eq]
  simp

theorem matrixOutcome_launched (w : World) (args : Args) (ts fl : List String) :
    (matrixOutcome w args ts fl).launched =
      (invocations fl ts).map
        (fun p => mkCmd w.executable p.2 (gyp_options_of args.gyp_option)) := by
  rw [matrixOutcome, runOuter_eq]
  simp

theorem matrixOutcome_exitCode (w : World) (args : Args) (ts fl : List String) :
    (matrixOutcome w args ts fl).exitCode =
      if (matrixOutcome w args ts fl).failed = [] then 0 else 1 := by
  rw [matrixOutcome_failed, matrixOutcome, runOuter_eq]
  simp

theorem matrixOutcome_output (w : World) (args : Args) (ts fl : List String) :
    (matrixOutcome w args ts fl).output =
      (if args.quiet then [] else [OutEvent.configInfo]) ++
      (if args.gyp_option ≠ [] ∧ args.quiet = false
       then [OutEvent.gypOptionsNote args.gyp_option] else []) ++
      matrixEvents w (gyp_options_of args.gyp_option)
        (ts.length * fl.length) (num_test_digits (ts.length * fl.length)) ts 1 fl ++
      (if args.quiet then []
       else reportEvents (matrixOutcome w args ts fl).failed
         (ts.length * fl.length)) := by
  rw [matrixOutcome_failed, matrixOutcome, runOuter_eq]
  simp

theorem classify_eq_failed_iff (rc : Int) :
    classify rc = .failed ↔ (rc ≠ 0 ∧ rc ≠ 2) := by
  rw [classify]
  split_ifs with h2 h0 <;> simp_all

theorem execPairs_output (w : World) (args : Args) (ts fl : List String) :
    execPairs ((matrixOutcome w args ts fl).output) = invocations fl ts := by
  rw [matrixOutcome_output]
  rw [execPairs_append, execPairs_append, execPairs_append,
    execPairs_matrixEvents]
  have h1 : execPairs (if args.quiet then [] else [OutEvent.configInfo]) = [] := by
    split <;> rfl
  have h2 : execPairs
      (if args.gyp_option ≠ [] ∧ args.quiet = false
       then [OutEvent.gypOptionsNote args.gyp_option] else []) = [] := by
    split <;> rfl
  have h3 : execPairs
      (if args.quiet then []
       else reportEvents (matrixOutcome w args ts fl).failed
         (ts.length * fl.length)) = [] := by
    split
    · rfl
    · exact execPairs_reportEvents _ _
  rw [h1, h2, h3]
  simp

theorem progressMeta_reportEvents {failed : List String} {n : Nat}
    {ev : OutEvent} (h : ev ∈ reportEvents failed n) : progressMeta ev = none := by
  rw [reportEvents] at h
  split at h <;> simp at h <;> rcases h with rfl | rfl | rfl <;> rfl

/-! ## Helper lemmas: the module never compiles -/

theorem line101_unbalanced : lineParenDepth line101 = 1 := by decide

theorem moduleParses_eq_false : moduleParses = false := by decide

theorem runGyptest_syntax_error (w : World) (args : Args) :
    runGyptest w args = .error .syntaxErrorLine101 := by
  rw [runGyptest, moduleParses_eq_false]
  rfl

/-! ## The claims -/

/-- C3, counterexample: on a directory whose only matching file sits inside
a `.svn` version-control metadata subdirectory, `find_all_gyptest_files`
returns that file — the walk of lines 25-26 prunes nothing — whereas the
discovery described by the claim (spec section 4.1, "skipping any
version-control metadata directories") returns nothing.  So discovery does
not skip version-control metadata directories. -/
theorem C3_counterexample :
    find_all_gyptest_files "test" svnTree = ["test/.svn/gyptest-x.py"] ∧
    find_all_gyptest_files_skipvc "test" svnTree = [] := by
  constructor
  · decide
  · decide

/-- C3, amended: for every directory, discovery returns exactly the paths
of the files under it whose base name starts with `gyptest` and ends with
`.py` — including files inside version-control metadata directories, which
the walk does not skip — and the result is sorted lexicographically. -/
theorem C3_discovery_exact (root : String) (t : FSTree) :
    List.Sorted (· ≤ ·) (find_all_gyptest_files root t) ∧
    ∀ p, p ∈ find_all_gyptest_files root t ↔
      ∃ pr ∈ allFiles root t, is_test_name pr.2 = true ∧ p = joinPath pr.1 pr.2 :=
  ⟨find_all_sorted root t, fun _ => mem_find_all⟩

/-- C1: the code violates the claim.  gyptest.py is not valid Python: the
`print` of line 101 has net parenthesis depth 1 instead of 0, so the
interpreter raises `SyntaxError` while compiling the module and every
invocation exits 1 before `main` runs — no child is ever launched and no
exit code is ever classified.  The last conjunct records the intent that
the claim describes: had the module parsed, the run below (children
exiting 0, 1 and 2) would classify them as passed, failed and skipped,
record exactly the one failing identity, and exit 1. -/
theorem C1_classification_unreachable :
    lineParenDepth line101 = 1 ∧
    runGyptest w0 c1args = .error .syntaxErrorLine101 ∧
    launchedOf (runGyptest w0 c1args) = [] ∧
    (pymain w0 c1args).map (fun o => (o.exitCode, o.failed)) =
      .ok (1, [mkFailId "make" "gyptest-fail.py"]) :=
  ⟨by decide, by decide, by decide, by decide⟩

/-- C2: the code violates the claim.  No test is ever executed — every
invocation dies in the module-level `SyntaxError` of line 101 — so the
number of invocations is 0, never `|tests| * |formats|` for a non-empty
selection.  The last conjunct records the intent: the nested loops of
lines 140-170 would have launched exactly `3 * 2` subprocesses on the
selection below. -/
theorem C2_matrix_unreachable :
    runGyptest w0 c2args = .error .syntaxErrorLine101 ∧
    launchedOf (runGyptest w0 c2args) = [] ∧
    (pymain w0 c2args).map (fun o => o.launched.length) =
      .ok (c1tests.length * (pySplitComma c2args.format).length) :=
  ⟨by decide, by decide, by decide⟩

/-- C4: the code violates the claim.  On a non-matching direct test
argument the artifact does exit 1, but with the `SyntaxError` traceback of
line 101, not the usage message: lines 73-77 never run.  The last conjunct
records the intent: had the module parsed, the run would write the usage
message to stderr, exit 1 and launch nothing. -/
theorem C4_usage_error_unreachable :
    runGyptest w0 c4args = .error .syntaxErrorLine101 ∧
    stdoutOf (runGyptest w0 c4args) = [] ∧
    launchedOf (runGyptest w0 c4args) = [] ∧
    (pymain w0 c4args).map (fun o => (o.exitCode, o.stderrLines, o.launched)) =
      .ok (1, ["notatest.py is not a valid gyp test name."], []) :=
  ⟨by decide, by decide, by decide, by decide⟩

/-- C5: the code violates the claim.  With `--list` the artifact exits 1
(the module-level `SyntaxError` of line 101), never 0, and prints no test
paths.  The last conjunct records the intent of lines 79-82: exit 0, the
discovered paths printed, nothing launched. -/
theorem C5_list_unreachable :
    runGyptest w0 c5args = .error .syntaxErrorLine101 ∧
    exitCodeOf (runGyptest w0 c5args) = 1 ∧
    stdoutOf (runGyptest w0 c5args) = [] ∧
    pymain w0 c5args = .ok
      { exitCode := 0, stderrLines := [],
        output := [OutEvent.testPath "gyptest-foo.py"], failed := [],
        launched := [] } :=
  ⟨by decide, by decide, by decide, by decide⟩

/-- C6, counterexample: a non-quiet single-test invocation — exactly where
the claim promises a printed progress line with index, format, command,
classification keyword and elapsed time — produces no stdout at all: the
module fails to compile (line 101) and the process exits 1. -/
theorem C6_counterexample :
    args0.quiet = false ∧
    runGyptest w0 args0 = .error .syntaxErrorLine101 ∧
    stdoutOf (runGyptest w0 args0) = [] :=
  ⟨rfl, by decide, by decide⟩

/-- C6, amended: no invocation prints a progress line, a summary, or
anything else of the runner's own output, and none launches a subprocess:
every run exits with code 1 at startup in the module-level `SyntaxError`
of line 101, in quiet and non-quiet mode alike. -/
theorem C6_no_output_ever (w : World) (args : Args) :
    stdoutOf (runGyptest w args) = [] ∧
    exitCodeOf (runGyptest w args) = 1 ∧
    launchedOf (runGyptest w args) = [] := by
  rw [runGyptest_syntax_error w args]
  exact ⟨rfl, rfl, rfl⟩

/-- C7: the code violates the claim.  Tracing
`gyptest.py -n -f make gyptest-foo.py`: the invocation dies in the
module-level `SyntaxError` of line 101, so no command line is printed —
the claim says the commands that would be run are printed.  The last
conjuncts record that the claim fails even within the intended body: the
parsed `no_exec` flag is never read back there, so the subprocess would
have been launched rather than only printed. -/
theorem C7_no_exec_unreachable :
    c7args.no_exec = true ∧
    runGyptest w0 c7args = .error .syntaxErrorLine101 ∧
    stdoutOf (runGyptest w0 c7args) = [] ∧
    (pymain w0 c7args).map (fun o => o.launched) =
      .ok [["python", "gyptest-foo.py"]] :=
  ⟨rfl, by decide, by decide, by decide⟩

/-- C8: the code violates the claim.  `gyptest.py -a --path /extra/bin`
dies at startup in the module-level `SyntaxError` of line 101: the given
directory is never prepended to any search path and the run does not
proceed.  The last conjunct records a second, independent defect on the
same path: had the module parsed, line 59 dereferences the undefined name
`opts`, so any `--path` run would die in a `NameError` anyway. -/
theorem C8_path_unreachable :
    c8args.path ≠ [] ∧
    runGyptest w0 c8args = .error .syntaxErrorLine101 ∧
    pymain w0 c8args = .error .nameErrorOpts :=
  ⟨by decide, by decide, by decide⟩

/-- C9: the code violates the claim.  No progress line is ever printed —
every invocation dies in the module-level `SyntaxError` of line 101 — so
no index is ever padded to any width.  The last conjunct records the
intent of line 136: the width `num_test_digits N` the loop would use is
exactly the ceiling of the base-10 logarithm of the total, the least `k`
with `N ≤ 10 ^ k`. -/
theorem C9_padding_unreachable :
    runGyptest w0 args0 = .error .syntaxErrorLine101 ∧
    stdoutOf (runGyptest w0 args0) = [] ∧
    (∀ N : Nat, IsLeast {k : Nat | N ≤ 10 ^ k} (num_test_digits N)) := by
  refine ⟨by decide, by decide, fun N => ?_⟩
  obtain ⟨hle, hleast⟩ := num_test_digits_le_pow N
  exact ⟨hle, fun k hk => hleast k hk⟩

/-- C10: the code violates the claim.  The artifact exits 1 on matching
and non-matching base names alike — always in the module-level
`SyntaxError` of line 101, launching nothing — so the claimed equivalence
(usage error exactly on a pattern-failing base name) and the claimed
progression of a matching, possibly nonexistent, path to execution are
both false of it.  The last two conjuncts record the intent of lines
69-77, which consult no existence oracle: a matching name would be
launched, a failing name would draw the usage message. -/
theorem C10_validation_unreachable :
    runGyptest w0 args0 = .error .syntaxErrorLine101 ∧
    launchedOf (runGyptest w0 args0) = [] ∧
    exitCodeOf (runGyptest w0 args0) = exitCodeOf (runGyptest w0 c4args) ∧
    (pymain w0 args0).map (fun o => o.launched) =
      .ok [["python", "gyptest-foo.py"]] ∧
    (pymain w0 c4args).map (fun o => (o.exitCode, o.stderrLines)) =
      .ok (1, ["notatest.py is not a valid gyp test name."]) :=
  ⟨by decide, by decide, by decide, by decide, by decide⟩

/-! ## The intended body of `main`: statement-level lemmas about `pymain`,
reachable in no real invocation -/

/-- Intended semantics of lines 73-77, unreachable in the artifact (see
`runGyptest`): a direct (non-directory) positional argument whose base name fails
`is_test_name` makes the runner write a message to stderr and exit with
code 1, with no subprocess launched and nothing on stdout. -/
theorem main_body_invalid_name_usage_error (w : World) (args : Args)
    (h1 : args.path = [])
    (hbad : ∃ a ∈ args.tests, w.isdir a = false ∧ is_test_name (basename a) = false) :
    ∃ o, pymain w args = .ok o ∧ o.exitCode = 1 ∧ o.launched = [] ∧
      o.output = [] ∧
      ∃ arg, o.stderrLines = [arg ++ " is not a valid gyp test name."] := by
  obtain ⟨a, ha, had, han⟩ := hbad
  have hne : args.tests ≠ [] := fun h => by simp [h] at ha
  have heff : effectiveTests args = args.tests := by
    rw [effectiveTests, if_neg hne]
  obtain ⟨bad, _, herr⟩ := collectTests_error w args.tests ⟨a, ha, had, han⟩
  have hmain : pymain w args = .ok
      { exitCode := 1, stderrLines := [bad ++ " is not a valid gyp test name."],
        output := [], failed := [], launched := [] } := by
    unfold pymain
    rw [if_neg (by simp [h1]), if_neg (fun hc => hne hc.1), heff, herr]
  exact ⟨_, hmain, rfl, rfl, rfl, bad, rfl⟩

/-- Intended semantics of lines 79-82, unreachable in the artifact (see
`runGyptest`): with `-l` (`--list`) and a test selection that passes validation, the
runner prints the discovered test paths and exits 0 without launching any
subprocess. -/
theorem main_body_list_mode (w : World) (args : Args) (ts : List String)
    (h1 : args.path = [])
    (h2 : ¬(args.tests = [] ∧ args.all = false))
    (h3 : collectTests w (effectiveTests args) = .ok ts)
    (hlist : args.list = true) :
    pymain w args = .ok
      { exitCode := 0, stderrLines := [], output := ts.map OutEvent.testPath,
        failed := [], launched := [] } := by
  unfold pymain
  rw [if_neg (by simp [h1]), if_neg h2, h3]
  simp [hlist]

/-- Within the intended body of `main`, itself unreachable in the artifact
(see `runGyptest`): `-n` (`--no-exec`) is parsed (line 46)
but never read back: with `no_exec` set, the runner still launches the
subprocess for the selected test instead of only printing its command
line. -/
theorem main_body_no_exec_unread :
    c7args.no_exec = true ∧
    (pymain w0 c7args).map (fun o => o.launched) =
      .ok [["python", "gyptest-foo.py"]] := by
  constructor
  · rfl
  · decide

/-- Intended semantics of lines 156-162 and 188-191, unreachable in the
artifact (see `runGyptest`): in every body run that reaches the matrix, a child exit code of 2
classifies as skipped, 0 as passed and any other nonzero value as failed;
the failure list holds exactly the `(format) test` identities of the
failing invocations; the overall exit code is 1 exactly when some
invocation exited with a nonzero code other than 2; and a run whose
children all exit with 0 or 2 ends with overall exit code 0. -/
theorem main_body_exit_code_classification (w : World) (args : Args)
    (ts fl : List String) (o : RunOutcome)
    (h1 : args.path = [])
    (h2 : ¬(args.tests = [] ∧ args.all = false))
    (h3 : collectTests w (effectiveTests args) = .ok ts)
    (h4 : args.list = false)
    (h5 : formatListOf w args = some fl)
    (h6 : ts.length * fl.length ≠ 0)
    (ho : pymain w args = .ok o) :
    (classify 2 = .skipped ∧ classify 0 = .passed ∧
      ∀ rc : Int, rc ≠ 0 → rc ≠ 2 → classify rc = .failed) ∧
    o.failed = (invocations fl ts).filterMap
      (fun p => if classify (w.rc p.1 p.2) = .failed
                then some (mkFailId p.1 p.2) else none) ∧
    (o.exitCode = 1 ↔
      ∃ p ∈ invocations fl ts, w.rc p.1 p.2 ≠ 0 ∧ w.rc p.1 p.2 ≠ 2) ∧
    ((∀ p ∈ invocations fl ts, w.rc p.1 p.2 = 0 ∨ w.rc p.1 p.2 = 2) →
      o.exitCode = 0) := by
  have hm := pymain_matrix_eq w args ts fl h1 h2 h3 h4 h5 h6
  rw [ho] at hm
  obtain rfl := Except.ok.inj hm
  refine ⟨⟨by decide, by decide, ?_⟩, matrixOutcome_failed w args ts fl, ?_, ?_⟩
  · intro rc h0 h2'
    rw [classify, if_neg h2', if_pos h0]
  · rw [matrixOutcome_exitCode, matrixOutcome_failed]
    by_cases hemp : (invocations fl ts).filterMap
        (fun p => if classify (w.rc p.1 p.2) = .failed
                  then some (mkFailId p.1 p.2) else none) = []
    · rw [if_pos hemp]
      constructor
      · intro h01
        exact absurd h01 (by omega)
      · rintro ⟨p, hp, hp0, hp2⟩
        have hnone := List.filterMap_eq_nil_iff.1 hemp p hp
        rw [if_pos ((classify_eq_failed_iff _).2 ⟨hp0, hp2⟩)] at hnone
        cases hnone
    · rw [if_neg hemp]
      constructor
      · intro _
        by_contra hno
        push_neg at hno
        apply hemp
        apply List.filterMap_eq_nil_iff.2
        intro p hp
        rw [if_neg]
        intro hf
        rcases (classify_eq_failed_iff _).1 hf with ⟨hp0, hp2⟩
        exact hp2 (hno p hp hp0)
      · intro _
        rfl
  · intro hall
    have hemp : (invocations fl ts).filterMap
        (fun p => if classify (w.rc p.1 p.2) = .failed
                  then some (mkFailId p.1 p.2) else none) = [] := by
      apply List.filterMap_eq_nil_iff.2
      intro p hp
      rw [if_neg]
      intro hf
      rcases (classify_eq_failed_iff _).1 hf with ⟨hp0, hp2⟩
      rcases hall p hp with h0 | h2'
      · exact hp0 h0
      · exact hp2 h2'
    rw [matrixOutcome_exitCode, matrixOutcome_failed, hemp]
    rfl

/-- Intended semantics of lines 140-170, unreachable in the artifact (see
`runGyptest`): in every body run that reaches the matrix with non-empty test and
format selections, the number of launched subprocesses is
`|tests| * |formats|`, the progress trace reports exactly the (format,
test) pairs of the matrix, each pair as many times as it occurs in the
selections — hence exactly once each when both selections are free of
duplicates. -/
theorem main_body_matrix_counts (w : World) (args : Args) (ts fl : List String)
    (o : RunOutcome)
    (h1 : args.path = [])
    (h2 : ¬(args.tests = [] ∧ args.all = false))
    (h3 : collectTests w (effectiveTests args) = .ok ts)
    (h4 : args.list = false)
    (h5 : formatListOf w args = some fl)
    (h6 : ts.length * fl.length ≠ 0)
    (_hts : ts ≠ []) (_hfl : fl ≠ [])
    (ho : pymain w args = .ok o) :
    o.launched.length = ts.length * fl.length ∧
    execPairs o.output = invocations fl ts ∧
    (∀ f t, (execPairs o.output).count (f, t) = fl.count f * ts.count t) ∧
    (fl.Nodup → ts.Nodup →
      ∀ f ∈ fl, ∀ t ∈ ts, (execPairs o.output).count (f, t) = 1) := by
  have hm := pymain_matrix_eq w args ts fl h1 h2 h3 h4 h5 h6
  rw [ho] at hm
  obtain rfl := Except.ok.inj hm
  refine ⟨?_, execPairs_output w args ts fl, ?_, ?_⟩
  · rw [matrixOutcome_launched, List.length_map, invocations_length]
    exact Nat.mul_comm _ _
  · intro f t
    rw [execPairs_output, count_invocations]
  · intro hndf hndt f hf t ht
    rw [execPairs_output, count_invocations,
      List.count_eq_one_of_mem hndf hf, List.count_eq_one_of_mem hndt ht]


/-- Within the intended body of `main`, itself unreachable in the artifact
(see `runGyptest`): in a quiet run (`-q`) of one passing test, the
progress line is still printed (the prints of lines 145 and 164 are not
guarded by `args.quiet`) and the summary is not printed (lines 172-186 are
guarded by `if not args.quiet`) — the reverse of what the claim states on
both points. -/
theorem main_body_quiet_trace :
    c6args.quiet = true ∧
    (pymain w0 c6args).map
      (fun o => ((o.output.filter isProgressLine).length,
                 (o.output.filter isRanSummary).length)) = .ok (1, 0) := by
  constructor
  · rfl
  · decide

/-- Intended semantics of lines 143-186, unreachable in the artifact (see
`runGyptest`): for every body invocation a progress line carrying the index
out of the total, the padding width, the format, the command minus the
interpreter, the classification keyword and the elapsed time is printed
regardless of quiet mode; quiet mode instead suppresses the summary, which
is printed exactly when quiet mode is off. -/
theorem main_body_progress_and_quiet (w : World) (args : Args) (ts fl : List String)
    (o : RunOutcome)
    (h1 : args.path = [])
    (h2 : ¬(args.tests = [] ∧ args.all = false))
    (h3 : collectTests w (effectiveTests args) = .ok ts)
    (h4 : args.list = false)
    (h5 : formatListOf w args = some fl)
    (h6 : ts.length * fl.length ≠ 0)
    (ho : pymain w args = .ok o) :
    (∀ f ∈ fl, ∀ t ∈ ts, ∃ k,
      OutEvent.progressLine k (ts.length * fl.length)
        (num_test_digits (ts.length * fl.length)) f
        (t :: gyp_options_of args.gyp_option)
        (classify (w.rc f t)) (w.took f t) ∈ o.output) ∧
    (args.quiet = true → ∀ a b, OutEvent.ranSummary a b ∉ o.output) ∧
    (args.quiet = false →
      OutEvent.ranSummary (ts.length * fl.length) o.failed.length ∈ o.output) := by
  have hm := pymain_matrix_eq w args ts fl h1 h2 h3 h4 h5 h6
  rw [ho] at hm
  obtain rfl := Except.ok.inj hm
  refine ⟨?_, ?_, ?_⟩
  · intro f hf t ht
    obtain ⟨k, hk⟩ := progress_mem_matrixEvents w (gyp_options_of args.gyp_option)
      (ts.length * fl.length) (num_test_digits (ts.length * fl.length))
      f t 1 ts fl hf ht
    refine ⟨k, ?_⟩
    rw [matrixOutcome_output]
    exact List.mem_append_left _ (List.mem_append_right _ hk)
  · intro hq a b hmem
    rw [matrixOutcome_output] at hmem
    rcases List.mem_append.1 hmem with h' | h'
    · rcases List.mem_append.1 h' with h'' | h''
      · rcases List.mem_append.1 h'' with h3' | h3'
        · rw [if_pos hq] at h3'
          cases h3'
        · rw [if_neg (by simp [hq])] at h3'
          cases h3'
      · exact ranSummary_not_mem_matrixEvents w _ _ _ ts a b 1 fl h''
    · rw [if_pos hq] at h'
      cases h'
  · intro hq
    rw [matrixOutcome_output]
    apply List.mem_append_right
    rw [if_neg (by simp [hq])]
    exact ranSummary_mem_reportEvents _ _

/-- Intended semantics of lines 134-138, unreachable in the artifact (see
`runGyptest`): every progress line of a body run that reaches the matrix
carries total `N = |tests| * |formats|` and padding width
`num_test_digits N`, and that width is the ceiling of the base-10
logarithm of `N`: the least `k` with `N ≤ 10 ^ k`. -/
theorem main_body_padding_width (w : World) (args : Args) (ts fl : List String)
    (o : RunOutcome)
    (h1 : args.path = [])
    (h2 : ¬(args.tests = [] ∧ args.all = false))
    (h3 : collectTests w (effectiveTests args) = .ok ts)
    (h4 : args.list = false)
    (h5 : formatListOf w args = some fl)
    (h6 : ts.length * fl.length ≠ 0)
    (ho : pymain w args = .ok o)
    (_hN : 1 ≤ ts.length * fl.length) :
    (∀ ev ∈ o.output, ∀ pr, progressMeta ev = some pr →
      pr = (ts.length * fl.length, num_test_digits (ts.length * fl.length))) ∧
    ts.length * fl.length ≤ 10 ^ num_test_digits (ts.length * fl.length) ∧
    (∀ k, ts.length * fl.length ≤ 10 ^ k →
      num_test_digits (ts.length * fl.length) ≤ k) := by
  have hm := pymain_matrix_eq w args ts fl h1 h2 h3 h4 h5 h6
  rw [ho] at hm
  obtain rfl := Except.ok.inj hm
  refine ⟨?_, (num_test_digits_le_pow _).1, (num_test_digits_le_pow _).2⟩
  intro ev hev pr hpr
  rw [matrixOutcome_output] at hev
  rcases List.mem_append.1 hev with h' | h'
  · rcases List.mem_append.1 h' with h'' | h''
    · rcases List.mem_append.1 h'' with h3' | h3'
      · split at h3'
        · cases h3'
        · rw [List.mem_singleton] at h3'
          subst h3'
          cases hpr
      · split at h3'
        · rw [List.mem_singleton] at h3'
          subst h3'
          cases hpr
        · cases h3'
    · exact progressMeta_matrixEvents h'' hpr
  · split at h'
    · cases h'
    · rw [progressMeta_reportEvents h'] at hpr
      cases hpr

/-- Intended semantics of lines 69-77, unreachable in the artifact (see
`runGyptest`): validation of direct (non-directory) positional arguments looks
only at the base name: the runner is invariant under any change of a
file-existence oracle (it consults none); the usage error (exit 1, message
on stderr, nothing launched) occurs exactly when some argument's base name
fails the pattern; and when every base name matches — whether or not any
such file exists — every argument is carried through to a launched
subprocess command. -/
theorem main_body_name_only_validation (w : World) (args : Args)
    (h1 : args.path = [])
    (hlist : args.list = false)
    (hnd : ∀ a ∈ args.tests, w.isdir a = false)
    (hne : args.tests ≠ [])
    (hfmt : args.format ≠ "") :
    (∀ ex1 ex2 : String → Bool,
      pymainFS ⟨w, ex1⟩ args = pymainFS ⟨w, ex2⟩ args) ∧
    ((∃ a ∈ args.tests, is_test_name (basename a) = false) ↔
      ∃ o, pymain w args = .ok o ∧ o.exitCode = 1 ∧ o.launched = [] ∧
        o.stderrLines ≠ []) ∧
    ((∀ a ∈ args.tests, is_test_name (basename a) = true) →
      ∃ o, pymain w args = .ok o ∧
        ∀ a ∈ args.tests,
          mkCmd w.executable a (gyp_options_of args.gyp_option) ∈ o.launched) := by
  have heff : effectiveTests args = args.tests := by
    rw [effectiveTests, if_neg hne]
  have h2 : ¬(args.tests = [] ∧ args.all = false) := fun hc => hne hc.1
  have hmatrix : (∀ a ∈ args.tests, is_test_name (basename a) = true) →
      pymain w args = .ok (matrixOutcome w args args.tests (pySplitComma args.format)) := by
    intro hval
    refine pymain_matrix_eq w args args.tests (pySplitComma args.format) h1 h2 ?_ hlist
      (formatListOf_explicit w hfmt) ?_
    · rw [heff]
      exact collectTests_ok w args.tests (fun a ha => ⟨hnd a ha, hval a ha⟩)
    · intro hzero
      rcases Nat.mul_eq_zero.1 hzero with hz | hz
      · exact hne (List.length_eq_zero.1 hz)
      · exact pySplitComma_ne_nil args.format (List.length_eq_zero.1 hz)
  refine ⟨fun ex1 ex2 => rfl, ⟨?_, ?_⟩, ?_⟩
  · rintro ⟨a, ha, han⟩
    obtain ⟨bad, _, herr⟩ := collectTests_error w args.tests ⟨a, ha, hnd a ha, han⟩
    have hmain : pymain w args = .ok
        { exitCode := 1,
          stderrLines := [bad ++ " is not a valid gyp test name."],
          output := [], failed := [], launched := [] } := by
      unfold pymain
      rw [if_neg (by simp [h1]), if_neg h2, heff, herr]
    exact ⟨_, hmain, rfl, rfl, by simp⟩
  · intro husage
    by_contra hno
    push_neg at hno
    have hval : ∀ a ∈ args.tests, is_test_name (basename a) = true := by
      intro a ha
      rcases Bool.eq_false_or_eq_true (is_test_name (basename a)) with htrue | hfalse
      · exact htrue
      · exact absurd hfalse (hno a ha)
    obtain ⟨o, hsol, hexit, hlaunch, hstderr⟩ := husage
    rw [hmatrix hval] at hsol
    obtain rfl := Except.ok.inj hsol
    rw [matrixOutcome_launched] at hlaunch
    have hinv : invocations (pySplitComma args.format) args.tests ≠ [] :=
      invocations_ne_nil (pySplitComma_ne_nil args.format) hne
    exact hinv (List.map_eq_nil_iff.1 hlaunch)
  · intro hval
    refine ⟨matrixOutcome w args args.tests (pySplitComma args.format),
      hmatrix hval, ?_⟩
    intro a ha
    rw [matrixOutcome_launched]
    obtain ⟨f, hf⟩ := List.exists_mem_of_ne_nil _ (pySplitComma_ne_nil args.format)
    exact List.mem_map.2 ⟨(f, a), (mem_invocations _ _ f a).2 ⟨hf, ha⟩, rfl⟩

/-- Within the intended body of `main`, itself unreachable in the artifact
(see `runGyptest`): any `--path DIR` makes line 59
dereference the undefined name `opts` (`extra_path = [os.path.abspath(p)
for p in opts.path]`), so the run dies with a `NameError` instead of
prepending the directories to the child search path and proceeding. -/
theorem main_body_path_name_error :
    c8args.path ≠ [] ∧ pymain w0 c8args = .error .nameErrorOpts := by
  constructor
  · decide
  · decide

/-! ## The body-level lemmas instantiated at concrete inputs, showing
their hypotheses are satisfiable -/

/-- `main_body_exit_code_classification` instantiated at `gyptest.py -f make gyptest-ok.py gyptest-fail.py gyptest-skip.py`
under `w0` (exit codes 0, 1 and 2 respectively). -/
theorem main_body_exit_code_instance :
    (classify 2 = .skipped ∧ classify 0 = .passed ∧
      ∀ rc : Int, rc ≠ 0 → rc ≠ 2 → classify rc = .failed) ∧
    (matrixOutcome w0 c1args c1tests ["make"]).failed =
      (invocations ["make"] c1tests).filterMap
        (fun p => if classify (w0.rc p.1 p.2) = .failed
                  then some (mkFailId p.1 p.2) else none) ∧
    ((matrixOutcome w0 c1args c1tests ["make"]).exitCode = 1 ↔
      ∃ p ∈ invocations ["make"] c1tests,
        w0.rc p.1 p.2 ≠ 0 ∧ w0.rc p.1 p.2 ≠ 2) ∧
    ((∀ p ∈ invocations ["make"] c1tests,
        w0.rc p.1 p.2 = 0 ∨ w0.rc p.1 p.2 = 2) →
      (matrixOutcome w0 c1args c1tests ["make"]).exitCode = 0) :=
  main_body_exit_code_classification w0 c1args c1tests ["make"] _
    rfl (by decide) (by decide) rfl (by decide) (by decide) (by decide)

/-- `main_body_matrix_counts` instantiated at `gyptest.py -f make,ninja` with the three tests of `c1tests`. -/
theorem main_body_matrix_counts_instance :
    (matrixOutcome w0 c2args c1tests ["make", "ninja"]).launched.length =
      c1tests.length * (["make", "ninja"] : List String).length ∧
    execPairs (matrixOutcome w0 c2args c1tests ["make", "ninja"]).output =
      invocations ["make", "ninja"] c1tests ∧
    (∀ f t,
      (execPairs (matrixOutcome w0 c2args c1tests ["make", "ninja"]).output).count
          (f, t) =
        (["make", "ninja"] : List String).count f * c1tests.count t) ∧
    ((["make", "ninja"] : List String).Nodup → c1tests.Nodup →
      ∀ f ∈ (["make", "ninja"] : List String), ∀ t ∈ c1tests,
        (execPairs (matrixOutcome w0 c2args c1tests ["make", "ninja"]).output).count
          (f, t) = 1) :=
  main_body_matrix_counts w0 c2args c1tests ["make", "ninja"] _
    rfl (by decide) (by decide) rfl (by decide) (by decide) (by decide) (by decide)
    (by decide)

/-- `main_body_invalid_name_usage_error` instantiated at `gyptest.py -f make notatest.py`. -/
theorem main_body_invalid_name_instance :
    ∃ o, pymain w0 c4args = .ok o ∧ o.exitCode = 1 ∧ o.launched = [] ∧
      o.output = [] ∧
      ∃ arg, o.stderrLines = [arg ++ " is not a valid gyp test name."] :=
  main_body_invalid_name_usage_error w0 c4args rfl
    ⟨"notatest.py", by decide, by decide, by decide⟩

/-- `main_body_list_mode` instantiated at `gyptest.py -l -f make gyptest-foo.py`. -/
theorem main_body_list_mode_instance :
    pymain w0 c5args = .ok
      { exitCode := 0, stderrLines := [],
        output := [OutEvent.testPath "gyptest-foo.py"], failed := [],
        launched := [] } :=
  main_body_list_mode w0 c5args ["gyptest-foo.py"] rfl (by decide) (by decide) rfl

/-- `main_body_progress_and_quiet` instantiated at the quiet run `gyptest.py -q -f make gyptest-foo.py`. -/
theorem main_body_progress_instance :
    (∀ f ∈ (["make"] : List String),
      ∀ t ∈ (["gyptest-foo.py"] : List String), ∃ k,
        OutEvent.progressLine k
          ((["gyptest-foo.py"] : List String).length *
            (["make"] : List String).length)
          (num_test_digits
            ((["gyptest-foo.py"] : List String).length *
              (["make"] : List String).length))
          f (t :: gyp_options_of c6args.gyp_option)
          (classify (w0.rc f t)) (w0.took f t) ∈
          (matrixOutcome w0 c6args ["gyptest-foo.py"] ["make"]).output) ∧
    (c6args.quiet = true → ∀ a b, OutEvent.ranSummary a b ∉
      (matrixOutcome w0 c6args ["gyptest-foo.py"] ["make"]).output) ∧
    (c6args.quiet = false →
      OutEvent.ranSummary
        ((["gyptest-foo.py"] : List String).length *
          (["make"] : List String).length)
        (matrixOutcome w0 c6args ["gyptest-foo.py"] ["make"]).failed.length ∈
        (matrixOutcome w0 c6args ["gyptest-foo.py"] ["make"]).output) :=
  main_body_progress_and_quiet w0 c6args ["gyptest-foo.py"] ["make"] _
    rfl (by decide) (by decide) rfl (by decide) (by decide) (by decide)

/-- `main_body_padding_width` instantiated at `gyptest.py -f make gyptest-foo.py`. -/
theorem main_body_padding_instance :
    (∀ ev ∈ (matrixOutcome w0 args0 ["gyptest-foo.py"] ["make"]).output,
      ∀ pr, progressMeta ev = some pr →
        pr = ((["gyptest-foo.py"] : List String).length *
            (["make"] : List String).length,
          num_test_digits
            ((["gyptest-foo.py"] : List String).length *
              (["make"] : List String).length))) ∧
    (["gyptest-foo.py"] : List String).length * (["make"] : List String).length ≤
      10 ^ num_test_digits
        ((["gyptest-foo.py"] : List String).length *
          (["make"] : List String).length) ∧
    (∀ k, (["gyptest-foo.py"] : List String).length *
        (["make"] : List String).length ≤ 10 ^ k →
      num_test_digits
        ((["gyptest-foo.py"] : List String).length *
          (["make"] : List String).length) ≤ k) :=
  main_body_padding_width w0 args0 ["gyptest-foo.py"] ["make"] _
    rfl (by decide) (by decide) rfl (by decide) (by decide) (by decide) (by decide)

/-- `main_body_name_only_validation` instantiated at `gyptest.py -f make gyptest-foo.py` (no oracle says whether
`gyptest-foo.py` exists; validation and launch happen regardless). -/
theorem main_body_name_only_instance :
    (∀ ex1 ex2 : String → Bool,
      pymainFS ⟨w0, ex1⟩ args0 = pymainFS ⟨w0, ex2⟩ args0) ∧
    ((∃ a ∈ args0.tests, is_test_name (basename a) = false) ↔
      ∃ o, pymain w0 args0 = .ok o ∧ o.exitCode = 1 ∧ o.launched = [] ∧
        o.stderrLines ≠ []) ∧
    ((∀ a ∈ args0.tests, is_test_name (basename a) = true) →
      ∃ o, pymain w0 args0 = .ok o ∧
        ∀ a ∈ args0.tests,
          mkCmd w0.executable a (gyp_options_of args0.gyp_option) ∈ o.launched) :=
  main_body_name_only_validation w0 args0 rfl rfl (by decide) (by decide) (by decide)

end Gyp
